import Mathlib

/-!
Verification of the inventory posting engine of `zezor/InventoryMgt`
(`src/inventory/services/inventory.py`) over the data model of
`src/inventory/models.py`.

Modelling conventions:
* Django `DecimalField(max_digits=16, decimal_places=3)` quantities are
  fixed-point decimals, i.e. exact multiples of 1/1000; they are modelled as
  `Int` (the value in thousandths), whose `+`, `-`, `min` and order agree
  with the source's decimal arithmetic.
* Database tables are association lists; `InventoryLevel` rows are unique per
  (variant, warehouse, bin) key, as enforced by `unique_together` plus the
  denormalized warehouse reference.
* `@transaction.atomic` with a raised exception means no state escapes, so a
  failing operation returns `Except.error` and the caller keeps the original
  state (all-or-nothing visibility).
* Row locking (`select_for_update`, `refresh_from_db`) is a concurrency
  artifact with no effect in the sequential semantics embedded here.
* Foreign-key navigation is flattened into structure fields:
  `warehouse.organization`, `bin.warehouse`, `variant.product.base_uom`
  become fields of the embedded `Warehouse`, `BinLocation`, `ProductVariant`.
-/

/-- `Warehouse` (models.py): id plus the `organization` foreign key used by
the posting engine via `warehouse.organization`. -/
structure Warehouse where
  id : Nat
  organization : Nat
deriving DecidableEq, Repr

/-- `BinLocation` (models.py): id plus its owning `warehouse`
(used by `post_transfer_line` via `from_bin.warehouse`). -/
structure BinLocation where
  id : Nat
  warehouse : Warehouse
deriving DecidableEq, Repr

/-- `ProductVariant` (models.py): id plus `product.base_uom` flattened to
`baseUom` (used by ship/transfer/count posting). -/
structure ProductVariant where
  id : Nat
  baseUom : Nat
deriving DecidableEq, Repr

/-- `InventoryLevel` (models.py lines 279-300): current stock snapshot per
(variant, warehouse, bin); all four quantity columns default to 0. -/
structure InventoryLevel where
  variant : Nat
  warehouse : Nat
  bin : Nat
  on_hand : Int
  allocated : Int
  safety_stock : Int
  reorder_point : Int
deriving DecidableEq, Repr

/-- `InventoryTransaction.Types` (models.py lines 304-316). -/
inductive TxnType where
  | RECEIVE
  | ISSUE
  | ADJUST
  | TRANSFER
  | RESERVE
  | RELEASE
  | PICK
  | PACK
  | SHIP
  | RETURN_PO
  | RETURN_SO
  | COUNT
deriving DecidableEq, Repr

/-- `InventoryTransaction` (models.py lines 303-347): append-only ledger
entry.  `occurred_at` (a wall-clock default) is not modelled. -/
structure InventoryTransaction where
  organization : Nat
  variant : Nat
  uom : Nat
  qty : Int
  type : TxnType
  warehouse_from : Option Nat := none
  bin_from : Option Nat := none
  warehouse_to : Option Nat := none
  bin_to : Option Nat := none
  batch : Option Nat := none
  serial : Option Nat := none
  source_type : String := ""
  source_id : String := ""
  note : String := ""
deriving DecidableEq, Repr

/-- The persistent store the posting engine mutates: the `InventoryLevel`
table and the append-only `InventoryTransaction` ledger. -/
structure InvState where
  levels : List InventoryLevel
  txns : List InventoryTransaction
deriving DecidableEq, Repr

/-- Errors raised by the engine.  The source raises Django
`ValidationError(msg)` at every failure site; `overAllocationError` exists
only for the spec-modelled Reserve operation (spec section 4.2). -/
inductive PostError where
  | validationError (msg : String)
  | overAllocationError
deriving DecidableEq, Repr

/-- Row lookup by the (variant, warehouse, bin) key used by
`_get_or_create_level`. -/
def findLevel (ls : List InventoryLevel) (v w b : Nat) : Option InventoryLevel :=
  ls.find? (fun l => l.variant == v && l.warehouse == w && l.bin == b)

/-- In-place row update (`level.save(update_fields=...)`): rewrite the row
with the given key, leave all others untouched. -/
def updateLevel (ls : List InventoryLevel) (v w b : Nat)
    (f : InventoryLevel → InventoryLevel) : List InventoryLevel :=
  ls.map (fun l => if l.variant == v && l.warehouse == w && l.bin == b then f l else l)

/-- `_get_or_create_level` (inventory.py lines 9-14): fetch the level row,
creating it with `on_hand = allocated = 0` (and model defaults 0 for
`safety_stock`/`reorder_point`) when absent. -/
def getOrCreateLevel (s : InvState) (variant : ProductVariant) (warehouse : Warehouse)
    (bin : BinLocation) : InvState × InventoryLevel :=
  match findLevel s.levels variant.id warehouse.id bin.id with
  | some l => (s, l)
  | none =>
      let l : InventoryLevel :=
        { variant := variant.id, warehouse := warehouse.id, bin := bin.id
          on_hand := 0, allocated := 0, safety_stock := 0, reorder_point := 0 }
      ({ s with levels := s.levels ++ [l] }, l)

/-- `GoodsReceipt` header: only `code` is read by the engine
(`gr_line.grn.code`). -/
structure GRN where
  code : String
deriving DecidableEq, Repr

/-- `GRLine` (models.py lines 407-418), with the fields the posting engine
reads; `id` is the UUID primary key, modelled as a `Nat`. -/
structure GRLine where
  id : Nat
  grn : GRN
  variant : ProductVariant
  warehouse : Warehouse
  bin : BinLocation
  qty_received : Int
  uom : Nat
  batch : Option Nat := none
deriving DecidableEq, Repr

/-- `post_goods_receipt_line` (inventory.py lines 17-45): add
`qty_received` to destination `on_hand` and append one RECEIVE transaction.
The source performs no validation, so the operation is total. -/
def post_goods_receipt_line (s : InvState) (gr_line : GRLine) : InvState :=
  let variant := gr_line.variant
  let warehouse := gr_line.warehouse
  let bin := gr_line.bin
  let qty := gr_line.qty_received
  let uom := gr_line.uom
  let s1 := (getOrCreateLevel s variant warehouse bin).1
  let levels1 := updateLevel s1.levels variant.id warehouse.id bin.id
    (fun l => { l with on_hand := l.on_hand + qty })
  let txn : InventoryTransaction :=
    { organization := warehouse.organization
      variant := variant.id
      uom := uom
      qty := qty
      type := TxnType.RECEIVE
      warehouse_to := some warehouse.id
      bin_to := some bin.id
      batch := gr_line.batch
      source_type := "GRLine"
      source_id := toString gr_line.id
      note := "GRN " ++ gr_line.grn.code }
  { levels := levels1, txns := s1.txns ++ [txn] }

/-- `Shipment` header: only `code` is read (`line.shipment.code`). -/
structure Shipment where
  code : String
deriving DecidableEq, Repr

/-- `ShipmentLine` (models.py lines 488-499), with the fields the posting
engine reads. -/
structure ShipmentLine where
  id : Nat
  shipment : Shipment
  variant : ProductVariant
  qty : Int
  warehouse : Warehouse
  bin : BinLocation
  serial : Option Nat := none
  batch : Option Nat := none
deriving DecidableEq, Repr

/-- `post_shipment_line` (inventory.py lines 48-83): fail when
`on_hand < qty`, otherwise subtract `qty` from `on_hand`, clamp-decrement
`allocated`, and append one SHIP transaction. -/
def post_shipment_line (s : InvState) (line : ShipmentLine) : Except PostError InvState :=
  let variant := line.variant
  let warehouse := line.warehouse
  let bin := line.bin
  let qty := line.qty
  let uom := variant.baseUom
  let s1 := (getOrCreateLevel s variant warehouse bin).1
  let level := (getOrCreateLevel s variant warehouse bin).2
  if level.on_hand < qty then
    Except.error (PostError.validationError "Insufficient on-hand to ship")
  else
    let levels1 := updateLevel s1.levels variant.id warehouse.id bin.id
      (fun l =>
        { l with
          on_hand := l.on_hand - qty
          allocated := if l.allocated > 0 then l.allocated - min l.allocated qty else l.allocated })
    let txn : InventoryTransaction :=
      { organization := warehouse.organization
        variant := variant.id
        uom := uom
        qty := qty
        type := TxnType.SHIP
        warehouse_from := some warehouse.id
        bin_from := some bin.id
        serial := line.serial
        batch := line.batch
        source_type := "ShipmentLine"
        source_id := toString line.id
        note := "Shipment " ++ line.shipment.code }
    Except.ok { levels := levels1, txns := s1.txns ++ [txn] }

/-- `StockTransfer` header: only `code` is read (`tline.transfer.code`). -/
structure StockTransfer where
  code : String
deriving DecidableEq, Repr

/-- `StockTransferLine` (models.py lines 519-527), with the fields the
posting engine reads. -/
structure StockTransferLine where
  id : Nat
  transfer : StockTransfer
  variant : ProductVariant
  qty : Int
  from_bin : BinLocation
  to_bin : BinLocation
deriving DecidableEq, Repr

/-- `post_transfer_line` (inventory.py lines 86-121): fail when source
`on_hand < qty`; otherwise decrement source, write one TRANSFER transaction
capturing both ends, then increment destination. -/
def post_transfer_line (s : InvState) (tline : StockTransferLine) : Except PostError InvState :=
  let variant := tline.variant
  let from_bin := tline.from_bin
  let to_bin := tline.to_bin
  let qty := tline.qty
  let uom := variant.baseUom
  let s1 := (getOrCreateLevel s variant from_bin.warehouse from_bin).1
  let from_level := (getOrCreateLevel s variant from_bin.warehouse from_bin).2
  if from_level.on_hand < qty then
    Except.error (PostError.validationError "Insufficient stock in source bin")
  else
    let levels1 := updateLevel s1.levels variant.id from_bin.warehouse.id from_bin.id
      (fun l => { l with on_hand := l.on_hand - qty })
    let txn : InventoryTransaction :=
      { organization := from_bin.warehouse.organization
        variant := variant.id
        uom := uom
        qty := qty
        type := TxnType.TRANSFER
        warehouse_from := some from_bin.warehouse.id
        bin_from := some from_bin.id
        warehouse_to := some to_bin.warehouse.id
        bin_to := some to_bin.id
        source_type := "StockTransferLine"
        source_id := toString tline.id
        note := "Transfer " ++ tline.transfer.code }
    let s2 : InvState := { levels := levels1, txns := s1.txns ++ [txn] }
    let s3 := (getOrCreateLevel s2 variant to_bin.warehouse to_bin).1
    let levels2 := updateLevel s3.levels variant.id to_bin.warehouse.id to_bin.id
      (fun l => { l with on_hand := l.on_hand + qty })
    Except.ok { levels := levels2, txns := s3.txns }

/-- `StockCountLine` (models.py lines 548-557), with the fields the posting
engine reads (`system_qty` and `variance_note` are unread). -/
structure StockCountLine where
  variant : ProductVariant
  bin : BinLocation
  counted_qty : Int
deriving DecidableEq, Repr

/-- `StockCount` (models.py lines 530-545) together with its lines, in the
order the queryset iterates them. -/
structure StockCount where
  id : Nat
  code : String
  warehouse : Warehouse
  lines : List StockCountLine
deriving DecidableEq, Repr

/-- Body of the per-line loop of `close_and_post_stock_count`
(inventory.py lines 127-147): compute `delta = counted_qty - on_hand`; when
nonzero, apply it to `on_hand` and write one COUNT transaction whose `qty`
is `delta` and whose from/to side is chosen by the sign of `delta`. -/
def postCountLine (count : StockCount) (s : InvState) (line : StockCountLine) : InvState :=
  let s1 := (getOrCreateLevel s line.variant count.warehouse line.bin).1
  let level := (getOrCreateLevel s line.variant count.warehouse line.bin).2
  let delta := line.counted_qty - level.on_hand
  if delta ≠ 0 then
    let levels1 := updateLevel s1.levels line.variant.id count.warehouse.id line.bin.id
      (fun l => { l with on_hand := l.on_hand + delta })
    let txn : InventoryTransaction :=
      { organization := count.warehouse.organization
        variant := line.variant.id
        uom := line.variant.baseUom
        qty := delta
        type := TxnType.COUNT
        warehouse_from := if delta < 0 then some count.warehouse.id else none
        bin_from := if delta < 0 then some line.bin.id else none
        warehouse_to := if delta > 0 then some count.warehouse.id else none
        bin_to := if delta > 0 then some line.bin.id else none
        source_type := "StockCount"
        source_id := toString count.id
        note := "Stock count " ++ count.code }
    { levels := levels1, txns := s1.txns ++ [txn] }
  else s1

/-- `close_and_post_stock_count` (inventory.py lines 124-147): fold the
per-line reconciliation over the count's lines. -/
def close_and_post_stock_count (s : InvState) (count : StockCount) : InvState :=
  count.lines.foldl (postCountLine count) s

/-- Modelled from the spec: the Reservation Tracker operation
`Reserve(so_line, bin, qty)` of spec section 4.2 has no implementation under
`src/` (only the `Reservation` model and the RESERVE transaction type are
declared), so it is modelled from the spec's words: it increases `allocated`
by `qty` on the target level and fails with `OverAllocationError` if
`allocated + qty > on_hand`. -/
def reserve (s : InvState) (variant : ProductVariant) (warehouse : Warehouse)
    (bin : BinLocation) (qty : Int) : Except PostError InvState :=
  let s1 := (getOrCreateLevel s variant warehouse bin).1
  let level := (getOrCreateLevel s variant warehouse bin).2
  if level.allocated + qty > level.on_hand then
    Except.error PostError.overAllocationError
  else
    Except.ok
      { s1 with
        levels := updateLevel s1.levels variant.id warehouse.id bin.id
          (fun l => { l with allocated := l.allocated + qty }) }

/-- The product record as read and written by `Sale.save`
(models.py lines 608-619): `price` and `stock_quantity` are the attributes
the method accesses on `self.product`. -/
structure SaleProduct where
  price : Int
  stock_quantity : Int
deriving DecidableEq, Repr

/-- `Sale` (models.py lines 592-606), with the fields `save` reads and
writes; `pk` is the primary key, `none` before the first save. -/
structure Sale where
  pk : Option Nat := none
  quantity : Nat
  price_at_sale : Int
  total_price : Int := 0
deriving DecidableEq, Repr

/-- `Sale.save` (models.py lines 608-619).  `newPk` models the primary key
the database assigns on insert; Python falsiness of `price_at_sale` is
equality with 0; the linked product row is threaded explicitly because
`self.product.save()` persists it. -/
def saveSale (newPk : Nat) (sale : Sale) (product : SaleProduct) : Sale × SaleProduct :=
  let sale1 := if sale.price_at_sale = 0 then { sale with price_at_sale := product.price } else sale
  let sale2 := { sale1 with total_price := (sale1.quantity : Int) * sale1.price_at_sale }
  let product1 :=
    if sale2.pk = none then
      { product with stock_quantity := product.stock_quantity - (sale2.quantity : Int) }
    else product
  let sale3 :=
    match sale2.pk with
    | none => { sale2 with pk := some newPk }
    | some _ => sale2
  (sale3, product1)

/-! ## Derived readers over the store -/

/-- `on_hand` at a (variant, warehouse, bin) key; an absent row reads as the
model default 0. -/
def onHandAt (s : InvState) (v w b : Nat) : Int :=
  ((findLevel s.levels v w b).map InventoryLevel.on_hand).getD 0

/-- `allocated` at a key; absent row reads as 0. -/
def allocatedAt (s : InvState) (v w b : Nat) : Int :=
  ((findLevel s.levels v w b).map InventoryLevel.allocated).getD 0

/-- `safety_stock` at a key; absent row reads as 0. -/
def safetyStockAt (s : InvState) (v w b : Nat) : Int :=
  ((findLevel s.levels v w b).map InventoryLevel.safety_stock).getD 0

/-- `reorder_point` at a key; absent row reads as 0. -/
def reorderPointAt (s : InvState) (v w b : Nat) : Int :=
  ((findLevel s.levels v w b).map InventoryLevel.reorder_point).getD 0

/-- The row updates used by the engine never change a row's key fields. -/
def keyPreserving (f : InventoryLevel → InventoryLevel) : Prop :=
  ∀ l, (f l).variant = l.variant ∧ (f l).warehouse = l.warehouse ∧ (f l).bin = l.bin

/-! ## Concrete data (mirrors tests/test_inventory.py and section 8 of the
spec's testable-property scenario); quantities are in thousandths, so 5
units are 5000. -/

/-- The warehouse of the repository's smoke test. -/
def wh1 : Warehouse := { id := 1, organization := 1 }

/-- Bin A1 of the smoke test. -/
def binA1 : BinLocation := { id := 1, warehouse := wh1 }

/-- Variant WIDG-STD of the smoke test. -/
def widg : ProductVariant := { id := 1, baseUom := 1 }

/-- The smoke test's goods-receipt line: 5 units into bin A1. -/
def grLine1 : GRLine :=
  { id := 10, grn := { code := "GR1" }, variant := widg, warehouse := wh1
    bin := binA1, qty_received := 5000, uom := 1 }

/-- A goods-receipt line carrying a non-positive quantity (-2 units). -/
def grLineNeg : GRLine :=
  { id := 11, grn := { code := "GR2" }, variant := widg, warehouse := wh1
    bin := binA1, qty_received := -2000, uom := 1 }

/-- A store holding one level row: 2 on hand, 0.5 allocated at WIDG-STD@A1. -/
def s2units : InvState :=
  { levels := [{ variant := 1, warehouse := 1, bin := 1, on_hand := 2000
                 allocated := 500, safety_stock := 0, reorder_point := 0 }]
    txns := [] }

/-- A shipment line asking for 10 units of WIDG-STD from A1. -/
def shipLine10 : ShipmentLine :=
  { id := 20, shipment := { code := "SHP1" }, variant := widg, qty := 10000
    warehouse := wh1, bin := binA1 }

/-- A shipment line asking for 1 unit of WIDG-STD from A1. -/
def shipLine1 : ShipmentLine :=
  { id := 21, shipment := { code := "SHP2" }, variant := widg, qty := 1000
    warehouse := wh1, bin := binA1 }

/-- Destination bin B2 in the same warehouse. -/
def binB2 : BinLocation := { id := 2, warehouse := wh1 }

/-- A transfer line moving 1 unit of WIDG-STD from A1 to B2. -/
def transferLine1 : StockTransferLine :=
  { id := 30, transfer := { code := "ST1" }, variant := widg, qty := 1000
    from_bin := binA1, to_bin := binB2 }

/-- A stock count whose only line confirms the current on-hand of 2 at A1. -/
def countMatch : StockCount :=
  { id := 40, code := "CNT1", warehouse := wh1
    lines := [{ variant := widg, bin := binA1, counted_qty := 2000 }] }

/-- A stock count whose only line counts 0.5 at A1 (shrinkage of 1.5). -/
def countShort : StockCount :=
  { id := 41, code := "CNT2", warehouse := wh1
    lines := [{ variant := widg, bin := binA1, counted_qty := 500 }] }

/-! ## Store lemmas -/

theorem findLevel_updateLevel_self (ls : List InventoryLevel) (v w b : Nat)
    (f : InventoryLevel → InventoryLevel) (hf : keyPreserving f) :
    findLevel (updateLevel ls v w b f) v w b = (findLevel ls v w b).map f := by
  unfold findLevel updateLevel
  rw [List.find?_map]
  have hpg : ((fun l : InventoryLevel => l.variant == v && l.warehouse == w && l.bin == b) ∘
      (fun l => if l.variant == v && l.warehouse == w && l.bin == b then f l else l)) =
      (fun l : InventoryLevel => l.variant == v && l.warehouse == w && l.bin == b) := by
    funext l
    obtain ⟨h1, h2, h3⟩ := hf l
    by_cases hm : (l.variant == v && l.warehouse == w && l.bin == b) = true
    · simp [Function.comp, hm, h1, h2, h3]
    · simp [Function.comp, hm]
  rw [hpg]
  cases hfind : List.find?
      (fun l : InventoryLevel => l.variant == v && l.warehouse == w && l.bin == b) ls with
  | none => rfl
  | some o =>
    have hp := List.find?_some hfind
    simp only [Option.map]
    rw [if_pos hp]

theorem findLevel_updateLevel_ne (ls : List InventoryLevel) (v w b v' w' b' : Nat)
    (f : InventoryLevel → InventoryLevel) (hf : keyPreserving f)
    (h : ¬(v' = v ∧ w' = w ∧ b' = b)) :
    findLevel (updateLevel ls v w b f) v' w' b' = findLevel ls v' w' b' := by
  unfold findLevel updateLevel
  rw [List.find?_map]
  have hpg : ((fun l : InventoryLevel => l.variant == v' && l.warehouse == w' && l.bin == b') ∘
      (fun l => if l.variant == v && l.warehouse == w && l.bin == b then f l else l)) =
      (fun l : InventoryLevel => l.variant == v' && l.warehouse == w' && l.bin == b') := by
    funext l
    obtain ⟨h1, h2, h3⟩ := hf l
    by_cases hm : (l.variant == v && l.warehouse == w && l.bin == b) = true
    · simp [Function.comp, hm, h1, h2, h3]
    · simp [Function.comp, hm]
  rw [hpg]
  cases hfind : List.find?
      (fun l : InventoryLevel => l.variant == v' && l.warehouse == w' && l.bin == b') ls with
  | none => rfl
  | some o =>
    have hp := List.find?_some hfind
    simp only [Bool.and_eq_true, beq_iff_eq] at hp
    have hno : ¬(o.variant == v && o.warehouse == w && o.bin == b) = true := by
      simp only [Bool.and_eq_true, beq_iff_eq]
      intro hc
      exact h ⟨hp.1.1.symm.trans hc.1.1, hp.1.2.symm.trans hc.1.2, hp.2.symm.trans hc.2⟩
    simp only [Option.map]
    rw [if_neg hno]

theorem findLevel_append (ls ls' : List InventoryLevel) (v w b : Nat) :
    findLevel (ls ++ ls') v w b = (findLevel ls v w b).or (findLevel ls' v w b) :=
  List.find?_append

theorem getOrCreateLevel_txns (s : InvState) (variant : ProductVariant)
    (warehouse : Warehouse) (bin : BinLocation) :
    (getOrCreateLevel s variant warehouse bin).1.txns = s.txns := by
  unfold getOrCreateLevel
  split <;> rfl

theorem getOrCreateLevel_key (s : InvState) (variant : ProductVariant)
    (warehouse : Warehouse) (bin : BinLocation) :
    (getOrCreateLevel s variant warehouse bin).2.variant = variant.id ∧
    (getOrCreateLevel s variant warehouse bin).2.warehouse = warehouse.id ∧
    (getOrCreateLevel s variant warehouse bin).2.bin = bin.id := by
  unfold getOrCreateLevel
  split
  case _ l heq =>
    have hp := List.find?_some heq
    simp only [Bool.and_eq_true, beq_iff_eq] at hp
    exact ⟨hp.1.1, hp.1.2, hp.2⟩
  case _ heq =>
    exact ⟨rfl, rfl, rfl⟩

theorem getOrCreateLevel_find_self (s : InvState) (variant : ProductVariant)
    (warehouse : Warehouse) (bin : BinLocation) :
    findLevel (getOrCreateLevel s variant warehouse bin).1.levels
        variant.id warehouse.id bin.id =
      some (getOrCreateLevel s variant warehouse bin).2 := by
  unfold getOrCreateLevel
  split
  case _ l heq => exact heq
  case _ heq =>
    show findLevel (s.levels ++ [_]) variant.id warehouse.id bin.id = _
    rw [findLevel_append, heq]
    simp [findLevel]

theorem getOrCreateLevel_find_ne (s : InvState) (variant : ProductVariant)
    (warehouse : Warehouse) (bin : BinLocation) (v' w' b' : Nat)
    (h : ¬(v' = variant.id ∧ w' = warehouse.id ∧ b' = bin.id)) :
    findLevel (getOrCreateLevel s variant warehouse bin).1.levels v' w' b' =
      findLevel s.levels v' w' b' := by
  unfold getOrCreateLevel
  split
  case _ l heq => rfl
  case _ heq =>
    show findLevel (s.levels ++ [_]) v' w' b' = _
    rw [findLevel_append]
    have hno : ¬((variant.id == v' && warehouse.id == w' && bin.id == b') = true) := by
      simp only [Bool.and_eq_true, beq_iff_eq]
      intro hc
      exact h ⟨hc.1.1.symm, hc.1.2.symm, hc.2.symm⟩
    have hsingle : findLevel
        [({ variant := variant.id, warehouse := warehouse.id, bin := bin.id
            on_hand := 0, allocated := 0, safety_stock := 0,
            reorder_point := 0 } : InventoryLevel)] v' w' b' = none := by
      simp only [findLevel, List.find?_eq_none, List.mem_singleton]
      intro x hx
      subst hx
      exact hno
    rw [hsingle, Option.or_none]

theorem getOrCreateLevel_on_hand (s : InvState) (variant : ProductVariant)
    (warehouse : Warehouse) (bin : BinLocation) :
    (getOrCreateLevel s variant warehouse bin).2.on_hand =
      onHandAt s variant.id warehouse.id bin.id := by
  unfold getOrCreateLevel onHandAt
  split
  case _ l heq => rw [heq]; rfl
  case _ heq => rw [heq]; rfl

theorem getOrCreateLevel_allocated (s : InvState) (variant : ProductVariant)
    (warehouse : Warehouse) (bin : BinLocation) :
    (getOrCreateLevel s variant warehouse bin).2.allocated =
      allocatedAt s variant.id warehouse.id bin.id := by
  unfold getOrCreateLevel allocatedAt
  split
  case _ l heq => rw [heq]; rfl
  case _ heq => rw [heq]; rfl

theorem getOrCreateLevel_safety_stock (s : InvState) (variant : ProductVariant)
    (warehouse : Warehouse) (bin : BinLocation) :
    (getOrCreateLevel s variant warehouse bin).2.safety_stock =
      safetyStockAt s variant.id warehouse.id bin.id := by
  unfold getOrCreateLevel safetyStockAt
  split
  case _ l heq => rw [heq]; rfl
  case _ heq => rw [heq]; rfl

theorem getOrCreateLevel_reorder_point (s : InvState) (variant : ProductVariant)
    (warehouse : Warehouse) (bin : BinLocation) :
    (getOrCreateLevel s variant warehouse bin).2.reorder_point =
      reorderPointAt s variant.id warehouse.id bin.id := by
  unfold getOrCreateLevel reorderPointAt
  split
  case _ l heq => rw [heq]; rfl
  case _ heq => rw [heq]; rfl

/-! ## Effect lemmas for `post_goods_receipt_line` -/

/-- The destination row after a goods receipt: the pre-existing (or freshly
created) row with `on_hand` increased by `qty_received`. -/
theorem post_goods_receipt_line_find_self (s : InvState) (g : GRLine) :
    findLevel (post_goods_receipt_line s g).levels g.variant.id g.warehouse.id g.bin.id =
      some { (getOrCreateLevel s g.variant g.warehouse g.bin).2 with
             on_hand := (getOrCreateLevel s g.variant g.warehouse g.bin).2.on_hand
               + g.qty_received } := by
  have hf : keyPreserving (fun l => { l with on_hand := l.on_hand + g.qty_received }) :=
    fun l => ⟨rfl, rfl, rfl⟩
  show findLevel
      (updateLevel (getOrCreateLevel s g.variant g.warehouse g.bin).1.levels
        g.variant.id g.warehouse.id g.bin.id
        (fun l => { l with on_hand := l.on_hand + g.qty_received }))
      g.variant.id g.warehouse.id g.bin.id = _
  rw [findLevel_updateLevel_self _ _ _ _ _ hf, getOrCreateLevel_find_self]
  rfl

/-- A goods receipt leaves every other (variant, warehouse, bin) row
untouched. -/
theorem post_goods_receipt_line_find_ne (s : InvState) (g : GRLine) (v w b : Nat)
    (h : ¬(v = g.variant.id ∧ w = g.warehouse.id ∧ b = g.bin.id)) :
    findLevel (post_goods_receipt_line s g).levels v w b = findLevel s.levels v w b := by
  have hf : keyPreserving (fun l => { l with on_hand := l.on_hand + g.qty_received }) :=
    fun l => ⟨rfl, rfl, rfl⟩
  show findLevel
      (updateLevel (getOrCreateLevel s g.variant g.warehouse g.bin).1.levels
        g.variant.id g.warehouse.id g.bin.id
        (fun l => { l with on_hand := l.on_hand + g.qty_received })) v w b = _
  rw [findLevel_updateLevel_ne _ _ _ _ _ _ _ _ hf h,
    getOrCreateLevel_find_ne _ _ _ _ _ _ _ h]

/-- A goods receipt appends exactly one RECEIVE transaction, with
destination fields set and source fields unset. -/
theorem post_goods_receipt_line_txns (s : InvState) (g : GRLine) :
    (post_goods_receipt_line s g).txns = s.txns ++
      [{ organization := g.warehouse.organization
         variant := g.variant.id
         uom := g.uom
         qty := g.qty_received
         type := TxnType.RECEIVE
         warehouse_to := some g.warehouse.id
         bin_to := some g.bin.id
         batch := g.batch
         source_type := "GRLine"
         source_id := toString g.id
         note := "GRN " ++ g.grn.code }] := by
  show (getOrCreateLevel s g.variant g.warehouse g.bin).1.txns ++ [_] = _
  rw [getOrCreateLevel_txns]

/-! ## Effect lemmas for `post_shipment_line` -/

/-- Insufficient stock: the guard fires and the operation aborts; under
`@transaction.atomic` nothing (level row creation included) is committed,
which the embedding renders by returning no state. -/
theorem post_shipment_line_fail (s : InvState) (line : ShipmentLine)
    (h : onHandAt s line.variant.id line.warehouse.id line.bin.id < line.qty) :
    post_shipment_line s line =
      Except.error (PostError.validationError "Insufficient on-hand to ship") := by
  have hoh := getOrCreateLevel_on_hand s line.variant line.warehouse line.bin
  simp only [post_shipment_line]
  rw [hoh, if_pos h]

/-- Sufficient stock: the exact state `post_shipment_line` commits. -/
theorem post_shipment_line_ok_eq (s : InvState) (line : ShipmentLine)
    (h : ¬ onHandAt s line.variant.id line.warehouse.id line.bin.id < line.qty) :
    post_shipment_line s line = Except.ok
      { levels := updateLevel (getOrCreateLevel s line.variant line.warehouse line.bin).1.levels
          line.variant.id line.warehouse.id line.bin.id
          (fun l =>
            { l with
              on_hand := l.on_hand - line.qty
              allocated := if l.allocated > 0 then l.allocated - min l.allocated line.qty
                else l.allocated })
        txns := (getOrCreateLevel s line.variant line.warehouse line.bin).1.txns ++
          [{ organization := line.warehouse.organization
             variant := line.variant.id
             uom := line.variant.baseUom
             qty := line.qty
             type := TxnType.SHIP
             warehouse_from := some line.warehouse.id
             bin_from := some line.bin.id
             serial := line.serial
             batch := line.batch
             source_type := "ShipmentLine"
             source_id := toString line.id
             note := "Shipment " ++ line.shipment.code }] } := by
  have hoh := getOrCreateLevel_on_hand s line.variant line.warehouse line.bin
  simp only [post_shipment_line]
  rw [hoh, if_neg h]

/-- Receiving 5 units into an empty store yields `on_hand = 5` at A1
(test_receipt_posts_inventory). -/
example : onHandAt (post_goods_receipt_line ⟨[], []⟩ grLine1) 1 1 1 = 5000 := by decide

example : (post_goods_receipt_line ⟨[], []⟩ grLine1).txns.length = 1 := by decide

/-! ## Claim theorems: goods receipt and shipment -/

/-- C1: for every shipment line whose (variant, warehouse, bin) level has
`on_hand < qty`, `post_shipment_line` fails with the insufficient-stock
error (raised in the source as
`ValidationError("Insufficient on-hand to ship")`, the failure the spec's
taxonomy names `InsufficientStockError`); since the enclosing
`@transaction.atomic` rolls back, the operation returns no state at all, so
`on_hand`, `allocated` and the transaction ledger are unchanged — no
partial effect. -/
theorem ship_insufficient_fails (s : InvState) (line : ShipmentLine)
    (h : onHandAt s line.variant.id line.warehouse.id line.bin.id < line.qty) :
    post_shipment_line s line =
      Except.error (PostError.validationError "Insufficient on-hand to ship") :=
  post_shipment_line_fail s line h

/-- Witness for C1: shipping 10 units when only 2 are on hand fails. -/
theorem ship_insufficient_fails_witness :
    onHandAt s2units shipLine10.variant.id shipLine10.warehouse.id shipLine10.bin.id
        < shipLine10.qty ∧
    post_shipment_line s2units shipLine10 =
      Except.error (PostError.validationError "Insufficient on-hand to ship") :=
  ⟨by decide, ship_insufficient_fails s2units shipLine10 (by decide)⟩

/-- C2: for every goods-receipt line with qty > 0, posting increases
`on_hand` at the destination level by exactly qty (the row exists
afterwards, created at zero if absent — absent rows read as 0), leaves
every other level row unchanged, and appends exactly one RECEIVE
transaction with matching qty/variant/bin, destination fields set and
source fields unset. -/
theorem receipt_effect_correct (s : InvState) (g : GRLine)
    (hq : 0 < g.qty_received) :
    onHandAt (post_goods_receipt_line s g) g.variant.id g.warehouse.id g.bin.id
        = onHandAt s g.variant.id g.warehouse.id g.bin.id + g.qty_received ∧
    (findLevel (post_goods_receipt_line s g).levels g.variant.id g.warehouse.id
        g.bin.id).isSome = true ∧
    (∀ v w b : Nat, ¬(v = g.variant.id ∧ w = g.warehouse.id ∧ b = g.bin.id) →
        findLevel (post_goods_receipt_line s g).levels v w b = findLevel s.levels v w b) ∧
    (post_goods_receipt_line s g).txns = s.txns ++
      [{ organization := g.warehouse.organization
         variant := g.variant.id
         uom := g.uom
         qty := g.qty_received
         type := TxnType.RECEIVE
         warehouse_to := some g.warehouse.id
         bin_to := some g.bin.id
         batch := g.batch
         source_type := "GRLine"
         source_id := toString g.id
         note := "GRN " ++ g.grn.code }] := by
  refine ⟨?_, ?_, post_goods_receipt_line_find_ne s g, post_goods_receipt_line_txns s g⟩
  · unfold onHandAt
    rw [post_goods_receipt_line_find_self]
    show (getOrCreateLevel s g.variant g.warehouse g.bin).2.on_hand + g.qty_received = _
    rw [getOrCreateLevel_on_hand]
    rfl
  · rw [post_goods_receipt_line_find_self]
    rfl

/-- Witness for C2: the smoke test's receipt of 5 units. -/
theorem receipt_effect_correct_witness :
    (0 : Int) < grLine1.qty_received ∧
    onHandAt (post_goods_receipt_line s2units grLine1)
        grLine1.variant.id grLine1.warehouse.id grLine1.bin.id
      = onHandAt s2units grLine1.variant.id grLine1.warehouse.id grLine1.bin.id
        + grLine1.qty_received :=
  ⟨by decide, (receipt_effect_correct s2units grLine1 (by decide)).1⟩

/-- Counterexample to C3: `post_goods_receipt_line` contains no quantity
validation (inventory.py lines 17-45 raise nothing).  Posting a line with
`qty_received = -2 ≤ 0` does not fail before mutation: it changes the
level's `on_hand` (2 to 0) and appends a RECEIVE transaction to the
ledger. -/
theorem receipt_nonpositive_qty_not_rejected_cex :
    grLineNeg.qty_received ≤ 0 ∧
    (post_goods_receipt_line s2units grLineNeg).txns.length
        = s2units.txns.length + 1 ∧
    onHandAt (post_goods_receipt_line s2units grLineNeg) 1 1 1 = 0 ∧
    ¬ onHandAt (post_goods_receipt_line s2units grLineNeg) 1 1 1
        = onHandAt s2units 1 1 1 := by
  decide

/-- C3 (amended): `post_goods_receipt_line` performs no quantity
validation: a line with `qty_received ≤ 0` is posted like any other line,
adding `qty_received` to the destination `on_hand` and appending one
RECEIVE transaction carrying the non-positive qty. -/
theorem receipt_nonpositive_qty_posts (s : InvState) (g : GRLine)
    (hq : g.qty_received ≤ 0) :
    onHandAt (post_goods_receipt_line s g) g.variant.id g.warehouse.id g.bin.id
        = onHandAt s g.variant.id g.warehouse.id g.bin.id + g.qty_received ∧
    (post_goods_receipt_line s g).txns = s.txns ++
      [{ organization := g.warehouse.organization
         variant := g.variant.id
         uom := g.uom
         qty := g.qty_received
         type := TxnType.RECEIVE
         warehouse_to := some g.warehouse.id
         bin_to := some g.bin.id
         batch := g.batch
         source_type := "GRLine"
         source_id := toString g.id
         note := "GRN " ++ g.grn.code }] := by
  refine ⟨?_, post_goods_receipt_line_txns s g⟩
  unfold onHandAt
  rw [post_goods_receipt_line_find_self]
  show (getOrCreateLevel s g.variant g.warehouse g.bin).2.on_hand + g.qty_received = _
  rw [getOrCreateLevel_on_hand]
  rfl

/-- Witness for the amended C3: the -2-unit receipt posts and mutates. -/
theorem receipt_nonpositive_qty_posts_witness :
    grLineNeg.qty_received ≤ 0 ∧
    onHandAt (post_goods_receipt_line s2units grLineNeg)
        grLineNeg.variant.id grLineNeg.warehouse.id grLineNeg.bin.id
      = onHandAt s2units grLineNeg.variant.id grLineNeg.warehouse.id grLineNeg.bin.id
        + grLineNeg.qty_received :=
  ⟨by decide, (receipt_nonpositive_qty_posts s2units grLineNeg (by decide)).1⟩

/-- C9: a goods receipt leaves `allocated`, `safety_stock` and
`reorder_point` of the affected level unchanged — the level save updates
only `on_hand` (`update_fields=["on_hand"]`), and a freshly created row
carries the same defaults an absent row reads as. -/
theorem receipt_frame (s : InvState) (g : GRLine) :
    allocatedAt (post_goods_receipt_line s g) g.variant.id g.warehouse.id g.bin.id
        = allocatedAt s g.variant.id g.warehouse.id g.bin.id ∧
    safetyStockAt (post_goods_receipt_line s g) g.variant.id g.warehouse.id g.bin.id
        = safetyStockAt s g.variant.id g.warehouse.id g.bin.id ∧
    reorderPointAt (post_goods_receipt_line s g) g.variant.id g.warehouse.id g.bin.id
        = reorderPointAt s g.variant.id g.warehouse.id g.bin.id := by
  refine ⟨?_, ?_, ?_⟩
  · unfold allocatedAt
    rw [post_goods_receipt_line_find_self]
    show (getOrCreateLevel s g.variant g.warehouse g.bin).2.allocated = _
    rw [getOrCreateLevel_allocated]
    rfl
  · unfold safetyStockAt
    rw [post_goods_receipt_line_find_self]
    show (getOrCreateLevel s g.variant g.warehouse g.bin).2.safety_stock = _
    rw [getOrCreateLevel_safety_stock]
    rfl
  · unfold reorderPointAt
    rw [post_goods_receipt_line_find_self]
    show (getOrCreateLevel s g.variant g.warehouse g.bin).2.reorder_point = _
    rw [getOrCreateLevel_reorder_point]
    rfl

/-! ## Effect lemmas for `post_transfer_line` -/

/-- Insufficient source stock: the transfer aborts with the source's
`ValidationError("Insufficient stock in source bin")`. -/
theorem post_transfer_line_fail (s : InvState) (t : StockTransferLine)
    (h : onHandAt s t.variant.id t.from_bin.warehouse.id t.from_bin.id < t.qty) :
    post_transfer_line s t =
      Except.error (PostError.validationError "Insufficient stock in source bin") := by
  have hoh := getOrCreateLevel_on_hand s t.variant t.from_bin.warehouse t.from_bin
  simp only [post_transfer_line]
  rw [hoh, if_pos h]

/-- Sufficient source stock: the exact state `post_transfer_line` commits
(source decremented, TRANSFER transaction appended, destination
incremented, in the source's order). -/
theorem post_transfer_line_ok_eq (s : InvState) (t : StockTransferLine)
    (h : ¬ onHandAt s t.variant.id t.from_bin.warehouse.id t.from_bin.id < t.qty) :
    post_transfer_line s t = Except.ok
      { levels := updateLevel
          (getOrCreateLevel
            { levels := updateLevel
                (getOrCreateLevel s t.variant t.from_bin.warehouse t.from_bin).1.levels
                t.variant.id t.from_bin.warehouse.id t.from_bin.id
                (fun l => { l with on_hand := l.on_hand - t.qty })
              txns := (getOrCreateLevel s t.variant t.from_bin.warehouse t.from_bin).1.txns ++
                [{ organization := t.from_bin.warehouse.organization
                   variant := t.variant.id
                   uom := t.variant.baseUom
                   qty := t.qty
                   type := TxnType.TRANSFER
                   warehouse_from := some t.from_bin.warehouse.id
                   bin_from := some t.from_bin.id
                   warehouse_to := some t.to_bin.warehouse.id
                   bin_to := some t.to_bin.id
                   source_type := "StockTransferLine"
                   source_id := toString t.id
                   note := "Transfer " ++ t.transfer.code }] }
            t.variant t.to_bin.warehouse t.to_bin).1.levels
          t.variant.id t.to_bin.warehouse.id t.to_bin.id
          (fun l => { l with on_hand := l.on_hand + t.qty })
        txns := (getOrCreateLevel
            { levels := updateLevel
                (getOrCreateLevel s t.variant t.from_bin.warehouse t.from_bin).1.levels
                t.variant.id t.from_bin.warehouse.id t.from_bin.id
                (fun l => { l with on_hand := l.on_hand - t.qty })
              txns := (getOrCreateLevel s t.variant t.from_bin.warehouse t.from_bin).1.txns ++
                [{ organization := t.from_bin.warehouse.organization
                   variant := t.variant.id
                   uom := t.variant.baseUom
                   qty := t.qty
                   type := TxnType.TRANSFER
                   warehouse_from := some t.from_bin.warehouse.id
                   bin_from := some t.from_bin.id
                   warehouse_to := some t.to_bin.warehouse.id
                   bin_to := some t.to_bin.id
                   source_type := "StockTransferLine"
                   source_id := toString t.id
                   note := "Transfer " ++ t.transfer.code }] }
            t.variant t.to_bin.warehouse t.to_bin).1.txns } := by
  have hoh := getOrCreateLevel_on_hand s t.variant t.from_bin.warehouse t.from_bin
  simp only [post_transfer_line]
  rw [hoh, if_neg h]

/-- Reading the updated key after a get-or-create-then-update sequence:
the value is `f` applied to the fetched (or freshly created) row. -/
theorem onHandAt_update_getOrCreate_self (s : InvState) (variant : ProductVariant)
    (warehouse : Warehouse) (bin : BinLocation) (tx : List InventoryTransaction)
    (f : InventoryLevel → InventoryLevel) (hf : keyPreserving f) :
    onHandAt { levels := (updateLevel (getOrCreateLevel s variant warehouse bin).1.levels
        variant.id warehouse.id bin.id f), txns := tx } variant.id warehouse.id bin.id
      = (f (getOrCreateLevel s variant warehouse bin).2).on_hand := by
  unfold onHandAt
  dsimp only
  rw [findLevel_updateLevel_self _ _ _ _ _ hf, getOrCreateLevel_find_self]
  rfl

/-- Reading any other key after a get-or-create-then-update sequence: the
value is unchanged. -/
theorem onHandAt_update_getOrCreate_ne (s : InvState) (variant : ProductVariant)
    (warehouse : Warehouse) (bin : BinLocation) (tx : List InventoryTransaction)
    (v' w' b' : Nat)
    (h : ¬(v' = variant.id ∧ w' = warehouse.id ∧ b' = bin.id))
    (f : InventoryLevel → InventoryLevel) (hf : keyPreserving f) :
    onHandAt { levels := (updateLevel (getOrCreateLevel s variant warehouse bin).1.levels
        variant.id warehouse.id bin.id f), txns := tx } v' w' b'
      = onHandAt s v' w' b' := by
  unfold onHandAt
  dsimp only
  rw [findLevel_updateLevel_ne _ _ _ _ _ _ _ _ hf h,
    getOrCreateLevel_find_ne _ _ _ _ _ _ _ h]

/-! ## Claim theorem: transfer conservation -/

/-- C5: for every successfully posted transfer line, the sum of `on_hand`
over the source and destination levels is conserved, and exactly one
TRANSFER transaction is appended capturing both the from and the to
warehouse/bin. -/
theorem transfer_conserves_on_hand (s : InvState) (t : StockTransferLine) (s' : InvState)
    (h : post_transfer_line s t = Except.ok s') :
    onHandAt s' t.variant.id t.from_bin.warehouse.id t.from_bin.id
      + onHandAt s' t.variant.id t.to_bin.warehouse.id t.to_bin.id
      = onHandAt s t.variant.id t.from_bin.warehouse.id t.from_bin.id
        + onHandAt s t.variant.id t.to_bin.warehouse.id t.to_bin.id ∧
    s'.txns = s.txns ++
      [{ organization := t.from_bin.warehouse.organization
         variant := t.variant.id
         uom := t.variant.baseUom
         qty := t.qty
         type := TxnType.TRANSFER
         warehouse_from := some t.from_bin.warehouse.id
         bin_from := some t.from_bin.id
         warehouse_to := some t.to_bin.warehouse.id
         bin_to := some t.to_bin.id
         source_type := "StockTransferLine"
         source_id := toString t.id
         note := "Transfer " ++ t.transfer.code }] := by
  by_cases hlt : onHandAt s t.variant.id t.from_bin.warehouse.id t.from_bin.id < t.qty
  · rw [post_transfer_line_fail s t hlt] at h
    exact absurd h (by simp)
  · rw [post_transfer_line_ok_eq s t hlt] at h
    injection h with h2
    subst h2
    have hfsub : keyPreserving (fun l : InventoryLevel => { l with on_hand := l.on_hand - t.qty }) :=
      fun l => ⟨rfl, rfl, rfl⟩
    have hfadd : keyPreserving (fun l : InventoryLevel => { l with on_hand := l.on_hand + t.qty }) :=
      fun l => ⟨rfl, rfl, rfl⟩
    set s2 : InvState :=
      { levels := updateLevel
          (getOrCreateLevel s t.variant t.from_bin.warehouse t.from_bin).1.levels
          t.variant.id t.from_bin.warehouse.id t.from_bin.id
          (fun l => { l with on_hand := l.on_hand - t.qty })
        txns := (getOrCreateLevel s t.variant t.from_bin.warehouse t.from_bin).1.txns ++
          [{ organization := t.from_bin.warehouse.organization
             variant := t.variant.id
             uom := t.variant.baseUom
             qty := t.qty
             type := TxnType.TRANSFER
             warehouse_from := some t.from_bin.warehouse.id
             bin_from := some t.from_bin.id
             warehouse_to := some t.to_bin.warehouse.id
             bin_to := some t.to_bin.id
             source_type := "StockTransferLine"
             source_id := toString t.id
             note := "Transfer " ++ t.transfer.code }] } with hs2
    have h2src : onHandAt s2 t.variant.id t.from_bin.warehouse.id t.from_bin.id
        = onHandAt s t.variant.id t.from_bin.warehouse.id t.from_bin.id - t.qty := by
      rw [hs2]
      rw [onHandAt_update_getOrCreate_self s t.variant t.from_bin.warehouse t.from_bin _ _ hfsub]
      show (getOrCreateLevel s t.variant t.from_bin.warehouse t.from_bin).2.on_hand - t.qty = _
      rw [getOrCreateLevel_on_hand]
    have h2ne : ∀ v' w' b',
        ¬(v' = t.variant.id ∧ w' = t.from_bin.warehouse.id ∧ b' = t.from_bin.id) →
        onHandAt s2 v' w' b' = onHandAt s v' w' b' := by
      intro v' w' b' hk
      rw [hs2]
      exact onHandAt_update_getOrCreate_ne s t.variant t.from_bin.warehouse t.from_bin
        _ v' w' b' hk _ hfsub
    have htx2 : s2.txns = s.txns ++
        [{ organization := t.from_bin.warehouse.organization
           variant := t.variant.id
           uom := t.variant.baseUom
           qty := t.qty
           type := TxnType.TRANSFER
           warehouse_from := some t.from_bin.warehouse.id
           bin_from := some t.from_bin.id
           warehouse_to := some t.to_bin.warehouse.id
           bin_to := some t.to_bin.id
           source_type := "StockTransferLine"
           source_id := toString t.id
           note := "Transfer " ++ t.transfer.code }] := by
      rw [hs2]
      show (getOrCreateLevel s t.variant t.from_bin.warehouse t.from_bin).1.txns ++ _ = _
      rw [getOrCreateLevel_txns]
    constructor
    · rw [onHandAt_update_getOrCreate_self s2 t.variant t.to_bin.warehouse t.to_bin _ _ hfadd]
      dsimp only
      rw [getOrCreateLevel_on_hand]
      by_cases hsame : t.from_bin.warehouse.id = t.to_bin.warehouse.id
          ∧ t.from_bin.id = t.to_bin.id
      · obtain ⟨hw, hb⟩ := hsame
        rw [hw, hb] at h2src ⊢
        rw [onHandAt_update_getOrCreate_self s2 t.variant t.to_bin.warehouse t.to_bin _ _ hfadd]
        dsimp only
        rw [getOrCreateLevel_on_hand]
        rw [h2src]
        omega
      · have hne1 : ¬(t.variant.id = t.variant.id ∧ t.to_bin.warehouse.id = t.from_bin.warehouse.id
            ∧ t.to_bin.id = t.from_bin.id) := by
          intro hc
          exact hsame ⟨hc.2.1.symm, hc.2.2.symm⟩
        have hne2 : ¬(t.variant.id = t.variant.id ∧ t.from_bin.warehouse.id = t.to_bin.warehouse.id
            ∧ t.from_bin.id = t.to_bin.id) := by
          intro hc
          exact hsame ⟨hc.2.1, hc.2.2⟩
        rw [onHandAt_update_getOrCreate_ne s2 t.variant t.to_bin.warehouse t.to_bin
          _ t.variant.id t.from_bin.warehouse.id t.from_bin.id hne2 _ hfadd]
        rw [h2src, h2ne t.variant.id t.to_bin.warehouse.id t.to_bin.id hne1]
        omega
    · show (getOrCreateLevel s2 t.variant t.to_bin.warehouse t.to_bin).1.txns = _
      rw [getOrCreateLevel_txns]
      exact htx2

/-- Witness for C5: moving 1 unit from A1 to B2 conserves the 2 units. -/
theorem transfer_conserves_on_hand_witness :
    post_transfer_line s2units transferLine1 = Except.ok
      { levels := [{ variant := 1, warehouse := 1, bin := 1, on_hand := 1000
                     allocated := 500, safety_stock := 0, reorder_point := 0 },
                   { variant := 1, warehouse := 1, bin := 2, on_hand := 1000
                     allocated := 0, safety_stock := 0, reorder_point := 0 }]
        txns := [{ organization := 1, variant := 1, uom := 1, qty := 1000
                   type := TxnType.TRANSFER, warehouse_from := some 1, bin_from := some 1
                   warehouse_to := some 1, bin_to := some 2
                   source_type := "StockTransferLine", source_id := "30"
                   note := "Transfer ST1" }] } ∧
    onHandAt { levels := [{ variant := 1, warehouse := 1, bin := 1, on_hand := 1000
                            allocated := 500, safety_stock := 0, reorder_point := 0 },
                          { variant := 1, warehouse := 1, bin := 2, on_hand := 1000
                            allocated := 0, safety_stock := 0, reorder_point := 0 }]
               txns := [{ organization := 1, variant := 1, uom := 1, qty := 1000
                          type := TxnType.TRANSFER, warehouse_from := some 1, bin_from := some 1
                          warehouse_to := some 1, bin_to := some 2
                          source_type := "StockTransferLine", source_id := "30"
                          note := "Transfer ST1" }] }
        transferLine1.variant.id transferLine1.from_bin.warehouse.id transferLine1.from_bin.id
      + onHandAt { levels := [{ variant := 1, warehouse := 1, bin := 1, on_hand := 1000
                                allocated := 500, safety_stock := 0, reorder_point := 0 },
                              { variant := 1, warehouse := 1, bin := 2, on_hand := 1000
                                allocated := 0, safety_stock := 0, reorder_point := 0 }]
                   txns := [{ organization := 1, variant := 1, uom := 1, qty := 1000
                              type := TxnType.TRANSFER, warehouse_from := some 1, bin_from := some 1
                              warehouse_to := some 1, bin_to := some 2
                              source_type := "StockTransferLine", source_id := "30"
                              note := "Transfer ST1" }] }
        transferLine1.variant.id transferLine1.to_bin.warehouse.id transferLine1.to_bin.id
      = onHandAt s2units transferLine1.variant.id transferLine1.from_bin.warehouse.id
          transferLine1.from_bin.id
        + onHandAt s2units transferLine1.variant.id transferLine1.to_bin.warehouse.id
            transferLine1.to_bin.id :=
  ⟨by rfl, (transfer_conserves_on_hand s2units transferLine1 _ (by rfl)).1⟩

/-- Reading `allocated` at the updated key after a
get-or-create-then-update sequence. -/
theorem allocatedAt_update_getOrCreate_self (s : InvState) (variant : ProductVariant)
    (warehouse : Warehouse) (bin : BinLocation) (tx : List InventoryTransaction)
    (f : InventoryLevel → InventoryLevel) (hf : keyPreserving f) :
    allocatedAt { levels := (updateLevel (getOrCreateLevel s variant warehouse bin).1.levels
        variant.id warehouse.id bin.id f), txns := tx } variant.id warehouse.id bin.id
      = (f (getOrCreateLevel s variant warehouse bin).2).allocated := by
  unfold allocatedAt
  dsimp only
  rw [findLevel_updateLevel_self _ _ _ _ _ hf, getOrCreateLevel_find_self]
  rfl

/-! ## Claim theorem: successful shipment -/

/-- C4: for every shipment line with qty > 0 whose level has
`on_hand ≥ qty` (and the data-model invariant `allocated ≥ 0`),
`post_shipment_line` decreases `on_hand` by exactly qty, decreases
`allocated` by exactly `min(allocated, qty)` — so `allocated` never becomes
negative — and appends exactly one SHIP transaction with
`warehouse_from`/`bin_from` set and the destination fields unset. -/
theorem ship_success_effect (s : InvState) (line : ShipmentLine)
    (hq : 0 < line.qty)
    (hoh : line.qty ≤ onHandAt s line.variant.id line.warehouse.id line.bin.id)
    (ha : 0 ≤ allocatedAt s line.variant.id line.warehouse.id line.bin.id) :
    ∃ s', post_shipment_line s line = Except.ok s' ∧
      onHandAt s' line.variant.id line.warehouse.id line.bin.id
        = onHandAt s line.variant.id line.warehouse.id line.bin.id - line.qty ∧
      allocatedAt s' line.variant.id line.warehouse.id line.bin.id
        = allocatedAt s line.variant.id line.warehouse.id line.bin.id
          - min (allocatedAt s line.variant.id line.warehouse.id line.bin.id) line.qty ∧
      0 ≤ allocatedAt s' line.variant.id line.warehouse.id line.bin.id ∧
      s'.txns = s.txns ++
        [{ organization := line.warehouse.organization
           variant := line.variant.id
           uom := line.variant.baseUom
           qty := line.qty
           type := TxnType.SHIP
           warehouse_from := some line.warehouse.id
           bin_from := some line.bin.id
           serial := line.serial
           batch := line.batch
           source_type := "ShipmentLine"
           source_id := toString line.id
           note := "Shipment " ++ line.shipment.code }] := by
  have hnl : ¬ onHandAt s line.variant.id line.warehouse.id line.bin.id < line.qty :=
    not_lt.mpr hoh
  have hfs : keyPreserving (fun l : InventoryLevel =>
      { l with
        on_hand := l.on_hand - line.qty
        allocated := if l.allocated > 0 then l.allocated - min l.allocated line.qty
          else l.allocated }) := fun l => ⟨rfl, rfl, rfl⟩
  refine ⟨_, post_shipment_line_ok_eq s line hnl, ?_, ?_, ?_, ?_⟩
  · rw [onHandAt_update_getOrCreate_self s line.variant line.warehouse line.bin _ _ hfs]
    dsimp only
    rw [getOrCreateLevel_on_hand]
  · rw [allocatedAt_update_getOrCreate_self s line.variant line.warehouse line.bin _ _ hfs]
    dsimp only
    rw [getOrCreateLevel_allocated]
    by_cases hpos : allocatedAt s line.variant.id line.warehouse.id line.bin.id > 0
    · rw [if_pos hpos]
    · rw [if_neg hpos]
      have h0 : allocatedAt s line.variant.id line.warehouse.id line.bin.id = 0 :=
        le_antisymm (not_lt.mp hpos) ha
      rw [h0, min_eq_left hq.le]
      omega
  · rw [allocatedAt_update_getOrCreate_self s line.variant line.warehouse line.bin _ _ hfs]
    dsimp only
    rw [getOrCreateLevel_allocated]
    by_cases hpos : allocatedAt s line.variant.id line.warehouse.id line.bin.id > 0
    · rw [if_pos hpos]
      exact sub_nonneg.mpr (min_le_left _ _)
    · rw [if_neg hpos]
      exact ha
  · show (getOrCreateLevel s line.variant line.warehouse line.bin).1.txns ++ _ = _
    rw [getOrCreateLevel_txns]

/-- Witness for C4: shipping 1 unit out of 2 on hand with 0.5 allocated. -/
theorem ship_success_effect_witness :
    0 < shipLine1.qty ∧
    shipLine1.qty ≤ onHandAt s2units shipLine1.variant.id shipLine1.warehouse.id
        shipLine1.bin.id ∧
    0 ≤ allocatedAt s2units shipLine1.variant.id shipLine1.warehouse.id shipLine1.bin.id ∧
    ∃ s', post_shipment_line s2units shipLine1 = Except.ok s' ∧
      onHandAt s' shipLine1.variant.id shipLine1.warehouse.id shipLine1.bin.id
        = onHandAt s2units shipLine1.variant.id shipLine1.warehouse.id shipLine1.bin.id
          - shipLine1.qty ∧
      allocatedAt s' shipLine1.variant.id shipLine1.warehouse.id shipLine1.bin.id
        = allocatedAt s2units shipLine1.variant.id shipLine1.warehouse.id shipLine1.bin.id
          - min (allocatedAt s2units shipLine1.variant.id shipLine1.warehouse.id
              shipLine1.bin.id) shipLine1.qty := by
  refine ⟨by decide, by decide, by decide, ?_⟩
  obtain ⟨s', h1, h2, h3, h4, h5⟩ :=
    ship_success_effect s2units shipLine1 (by decide) (by decide) (by decide)
  exact ⟨s', h1, h2, h3⟩

/-! ## Claim theorems: stock count -/

/-- C6: a stock-count line whose `counted_qty` equals the level's current
`on_hand` is a no-op: `close_and_post_stock_count` writes no transaction
for it and leaves that level's `on_hand` unchanged. -/
theorem count_noop_when_match (s : InvState) (count : StockCount) (line : StockCountLine)
    (hl : count.lines = [line])
    (hc : line.counted_qty = onHandAt s line.variant.id count.warehouse.id line.bin.id) :
    (close_and_post_stock_count s count).txns = s.txns ∧
    onHandAt (close_and_post_stock_count s count)
        line.variant.id count.warehouse.id line.bin.id
      = onHandAt s line.variant.id count.warehouse.id line.bin.id := by
  unfold close_and_post_stock_count
  rw [hl]
  simp only [List.foldl_cons, List.foldl_nil]
  have hoh := getOrCreateLevel_on_hand s line.variant count.warehouse line.bin
  have hnd : ¬ (line.counted_qty
      - (getOrCreateLevel s line.variant count.warehouse line.bin).2.on_hand ≠ 0) := by
    rw [hoh]
    omega
  simp only [postCountLine]
  rw [if_neg hnd]
  constructor
  · exact getOrCreateLevel_txns s line.variant count.warehouse line.bin
  · have hfind := getOrCreateLevel_find_self s line.variant count.warehouse line.bin
    unfold onHandAt
    rw [hfind]
    show (getOrCreateLevel s line.variant count.warehouse line.bin).2.on_hand = _
    rw [hoh]
    rfl

/-- Witness for C6: counting exactly the 2 units on hand at A1. -/
theorem count_noop_when_match_witness :
    countMatch.lines = [{ variant := widg, bin := binA1, counted_qty := 2000 }] ∧
    ({ variant := widg, bin := binA1, counted_qty := 2000 } : StockCountLine).counted_qty
      = onHandAt s2units widg.id countMatch.warehouse.id binA1.id ∧
    (close_and_post_stock_count s2units countMatch).txns = s2units.txns :=
  ⟨by decide, by decide,
    (count_noop_when_match s2units countMatch
      { variant := widg, bin := binA1, counted_qty := 2000 } (by decide) (by decide)).1⟩

/-- Counterexample to C7: the source writes the COUNT transaction with
`qty=delta` (inventory.py line 138), the signed delta, not its absolute
value.  Counting 0.5 against 2 on hand yields delta = -1.5 and a
transaction with qty = -1.5, whereas the claim requires |delta| = 1.5. -/
theorem count_txn_qty_signed_cex :
    (close_and_post_stock_count s2units countShort).txns.map InventoryTransaction.qty
        = [-1500] ∧
    ¬ (-1500 : Int) = |(500 : Int) - 2000| := by
  decide

/-- C7 (amended): for every stock-count line whose `counted_qty` differs
from the level's current `on_hand`, `close_and_post_stock_count` sets
`on_hand` to `counted_qty` and writes exactly one COUNT transaction whose
qty equals the signed delta `counted_qty - on_hand` (negative for
shrinkage), with `warehouse_from`/`bin_from` set when delta < 0 and
`warehouse_to`/`bin_to` set when delta > 0. -/
theorem count_mismatch_effect (s : InvState) (count : StockCount) (line : StockCountLine)
    (hl : count.lines = [line])
    (hc : line.counted_qty ≠ onHandAt s line.variant.id count.warehouse.id line.bin.id) :
    onHandAt (close_and_post_stock_count s count)
        line.variant.id count.warehouse.id line.bin.id
      = line.counted_qty ∧
    (close_and_post_stock_count s count).txns = s.txns ++
      [{ organization := count.warehouse.organization
         variant := line.variant.id
         uom := line.variant.baseUom
         qty := line.counted_qty - onHandAt s line.variant.id count.warehouse.id line.bin.id
         type := TxnType.COUNT
         warehouse_from := if line.counted_qty
             - onHandAt s line.variant.id count.warehouse.id line.bin.id < 0
           then some count.warehouse.id else none
         bin_from := if line.counted_qty
             - onHandAt s line.variant.id count.warehouse.id line.bin.id < 0
           then some line.bin.id else none
         warehouse_to := if line.counted_qty
             - onHandAt s line.variant.id count.warehouse.id line.bin.id > 0
           then some count.warehouse.id else none
         bin_to := if line.counted_qty
             - onHandAt s line.variant.id count.warehouse.id line.bin.id > 0
           then some line.bin.id else none
         source_type := "StockCount"
         source_id := toString count.id
         note := "Stock count " ++ count.code }] := by
  unfold close_and_post_stock_count
  rw [hl]
  simp only [List.foldl_cons, List.foldl_nil]
  have hoh := getOrCreateLevel_on_hand s line.variant count.warehouse line.bin
  simp only [postCountLine]
  rw [hoh]
  have hnd : line.counted_qty
      - onHandAt s line.variant.id count.warehouse.id line.bin.id ≠ 0 :=
    sub_ne_zero.mpr hc
  rw [if_pos hnd]
  have hfc : keyPreserving (fun l : InventoryLevel =>
      { l with on_hand := l.on_hand
          + (line.counted_qty
            - onHandAt s line.variant.id count.warehouse.id line.bin.id) }) :=
    fun l => ⟨rfl, rfl, rfl⟩
  constructor
  · rw [onHandAt_update_getOrCreate_self s line.variant count.warehouse line.bin _ _ hfc]
    dsimp only
    rw [hoh]
    omega
  · show (getOrCreateLevel s line.variant count.warehouse line.bin).1.txns ++ _ = _
    rw [getOrCreateLevel_txns]

/-- Witness for the amended C7: counting 0.5 against 2 on hand. -/
theorem count_mismatch_effect_witness :
    countShort.lines = [{ variant := widg, bin := binA1, counted_qty := 500 }] ∧
    ({ variant := widg, bin := binA1, counted_qty := 500 } : StockCountLine).counted_qty
      ≠ onHandAt s2units widg.id countShort.warehouse.id binA1.id ∧
    onHandAt (close_and_post_stock_count s2units countShort)
        widg.id countShort.warehouse.id binA1.id = 500 :=
  ⟨by decide, by decide,
    (count_mismatch_effect s2units countShort
      { variant := widg, bin := binA1, counted_qty := 500 } (by decide) (by decide)).1⟩

/-! ## Claim theorem: reservation policy (spec-modelled) -/

/-- C8: `Reserve` increases `allocated` by qty on the target level and
fails with `OverAllocationError` whenever `allocated + qty > on_hand`; on
failure no state is returned, so the level is unchanged.  The operation has
no implementation under `src/`, so this settles the claim against the
`reserve` definition modelled from the spec's own words. -/
theorem reserve_policy (s : InvState) (variant : ProductVariant) (warehouse : Warehouse)
    (bin : BinLocation) (qty : Int) :
    (allocatedAt s variant.id warehouse.id bin.id + qty
        > onHandAt s variant.id warehouse.id bin.id →
      reserve s variant warehouse bin qty = Except.error PostError.overAllocationError) ∧
    (allocatedAt s variant.id warehouse.id bin.id + qty
        ≤ onHandAt s variant.id warehouse.id bin.id →
      ∃ s', reserve s variant warehouse bin qty = Except.ok s' ∧
        allocatedAt s' variant.id warehouse.id bin.id
          = allocatedAt s variant.id warehouse.id bin.id + qty ∧
        onHandAt s' variant.id warehouse.id bin.id
          = onHandAt s variant.id warehouse.id bin.id) := by
  have hoh := getOrCreateLevel_on_hand s variant warehouse bin
  have hal := getOrCreateLevel_allocated s variant warehouse bin
  have hfr : keyPreserving (fun l : InventoryLevel => { l with allocated := l.allocated + qty }) :=
    fun l => ⟨rfl, rfl, rfl⟩
  constructor
  · intro h
    simp only [reserve]
    rw [hal, hoh, if_pos h]
  · intro h
    have hno : ¬ (allocatedAt s variant.id warehouse.id bin.id + qty
        > onHandAt s variant.id warehouse.id bin.id) := not_lt.mpr h
    have heq : reserve s variant warehouse bin qty = Except.ok
        { levels := (updateLevel (getOrCreateLevel s variant warehouse bin).1.levels
            variant.id warehouse.id bin.id
            (fun l => { l with allocated := l.allocated + qty }))
          txns := (getOrCreateLevel s variant warehouse bin).1.txns } := by
      simp only [reserve]
      rw [hal, hoh, if_neg hno]
    refine ⟨_, heq, ?_, ?_⟩
    · rw [allocatedAt_update_getOrCreate_self s variant warehouse bin _ _ hfr]
      dsimp only
      rw [hal]
    · rw [onHandAt_update_getOrCreate_self s variant warehouse bin _ _ hfr]
      dsimp only
      rw [hoh]

/-- Witness for C8: reserving 5 units against 2 on hand fails; reserving 1
unit against 2 on hand with 0.5 already allocated succeeds. -/
theorem reserve_policy_witness :
    (allocatedAt s2units widg.id wh1.id binA1.id + 5000
        > onHandAt s2units widg.id wh1.id binA1.id) ∧
    reserve s2units widg wh1 binA1 5000 = Except.error PostError.overAllocationError ∧
    (allocatedAt s2units widg.id wh1.id binA1.id + 1000
        ≤ onHandAt s2units widg.id wh1.id binA1.id) ∧
    ∃ s', reserve s2units widg wh1 binA1 1000 = Except.ok s' ∧
      allocatedAt s' widg.id wh1.id binA1.id
        = allocatedAt s2units widg.id wh1.id binA1.id + 1000 ∧
      onHandAt s' widg.id wh1.id binA1.id = onHandAt s2units widg.id wh1.id binA1.id :=
  ⟨by decide, (reserve_policy s2units widg wh1 binA1 5000).1 (by decide), by decide,
    (reserve_policy s2units widg wh1 binA1 1000).2 (by decide)⟩

/-! ## Claim theorem: Sale.save -/

/-- C10: `Sale.save` decrements the product's `stock_quantity` by the
sale's quantity exactly once, at first save (when the sale has no primary
key yet, which the save then assigns); saving an already-persisted sale
recomputes `total_price = quantity * price_at_sale` but leaves the product
untouched. -/
theorem sale_save_stock_once (k : Nat) (sale : Sale) (p : SaleProduct) :
    (sale.pk = none →
      (saveSale k sale p).2.stock_quantity = p.stock_quantity - (sale.quantity : Int) ∧
      (saveSale k sale p).1.pk = some k ∧
      (saveSale k sale p).1.total_price
        = (sale.quantity : Int) * (saveSale k sale p).1.price_at_sale) ∧
    (∀ j : Nat, sale.pk = some j →
      (saveSale k sale p).2 = p ∧
      (saveSale k sale p).1.total_price
        = (sale.quantity : Int) * (saveSale k sale p).1.price_at_sale) := by
  constructor
  · intro hpk
    unfold saveSale
    by_cases hp : sale.price_at_sale = 0 <;> simp [hp, hpk]
  · intro j hpk
    unfold saveSale
    by_cases hp : sale.price_at_sale = 0 <;> simp [hp, hpk]

/-- Witness for C10: a first save decrements stock; a re-save does not. -/
theorem sale_save_stock_once_witness :
    (({ pk := none, quantity := 2, price_at_sale := 50 } : Sale).pk = none) ∧
    (saveSale 7 { pk := none, quantity := 2, price_at_sale := 50 }
        { price := 60, stock_quantity := 10 }).2.stock_quantity = 10 - (2 : Int) ∧
    (({ pk := some 7, quantity := 2, price_at_sale := 50 } : Sale).pk = some 7) ∧
    (saveSale 9 { pk := some 7, quantity := 2, price_at_sale := 50 }
        { price := 60, stock_quantity := 10 }).2
      = { price := 60, stock_quantity := 10 } := by
  refine ⟨rfl, ?_, rfl, ?_⟩
  · exact ((sale_save_stock_once 7
      { pk := none, quantity := 2, price_at_sale := 50 }
      { price := 60, stock_quantity := 10 }).1 rfl).1
  · exact ((sale_save_stock_once 9
      { pk := some 7, quantity := 2, price_at_sale := 50 }
      { price := 60, stock_quantity := 10 }).2 7 rfl).1
